import Mathlib

/-!
Shallow embedding of the customer-support agent repository
(`database_utils.py`, `agent_tools.py`, `rag_system.py`, `agent_graph.py`,
`api.py`) and proofs about the frozen specification claims.

Modelling conventions:
* Python strings are Lean `String`s (ASCII-faithful; `.lower()` is
  `pyLower`, `.strip()` is `pyStrip`, substring `in` is `strContains`).
* The MySQL store is an explicit `Database` value; a connection attempt is
  modelled by the `connOk` flag of `Env` (false = `get_db_connection` raises
  `ConnectionError`, which every caller in the source catches).  SQL string
  equality and `LIKE` are modelled as exact equality / wildcard matching on
  the already-lowercased operands appearing in the source queries.
* `ORDER BY` ties are resolved by table order (stable sort), and
  `ORDER BY created_at DESC LIMIT 1` picks the row with the largest
  `created_at`, earliest table row on ties.
* Python truthiness of optional strings (`if result:`) is `pyTruthy`:
  `None` and the empty string are falsy.
* Randomness (`uuid`), clocks (`datetime.now`), file hashing (`hashlib.md5`),
  the chunk retriever and the language models are injected as parameters,
  since they are external effects.
-/

namespace CSA

/-- ASCII apostrophe, used to build the string literals of the source that
contain a quote character. -/
def apos : Char := Char.ofNat 39

/-- Apostrophe as a one-character string. -/
def aposS : String := String.mk [apos]

/-- Python whitespace (the characters matched by `str.strip` and `\s`). -/
def isPySpace (c : Char) : Bool :=
  c == ' ' || c == Char.ofNat 9 || c == Char.ofNat 10 || c == Char.ofNat 13 ||
  c == Char.ofNat 11 || c == Char.ofNat 12

/-- Python regex word character `[a-zA-Z0-9_]`, for `\b` boundaries. -/
def isWordChar (c : Char) : Bool := c.isAlpha || c.isDigit || c == Char.ofNat 95

/-- Character class `[a-zA-Z\s]` of the name-extraction regexes. -/
def isClassChar (c : Char) : Bool := c.isAlpha || isPySpace c

/-- Strip leading and trailing Python whitespace from a character list. -/
def pyStripL (cs : List Char) : List Char :=
  ((cs.dropWhile isPySpace).reverse.dropWhile isPySpace).reverse

/-- Python `str.strip()`. -/
def pyStrip (s : String) : String := String.mk (pyStripL s.toList)

/-- Python `str.lower()` (ASCII), structurally recursive so that concrete
evaluation reduces in the kernel. -/
def pyLower (s : String) : String := String.mk (s.toList.map Char.toLower)

/-- Python `str.upper()` (ASCII). -/
def pyUpper (s : String) : String := String.mk (s.toList.map Char.toUpper)

/-- Prefix of a string (Python slicing `s[:n]`). -/
def strTake (s : String) (n : Nat) : String := String.mk (s.toList.take n)

/-- Match a literal character list at the head of the input, returning the
remainder on success. -/
def litAt : List Char → List Char → Option (List Char)
  | [], s => some s
  | _ :: _, [] => none
  | t :: ts, c :: cs => if c == t then litAt ts cs else none

/-- Contiguous-occurrence test for a pattern inside a character list. -/
def strContainsL (pat : List Char) : List Char → Bool
  | [] => (litAt pat []).isSome
  | c :: rest => (litAt pat (c :: rest)).isSome || strContainsL pat rest

/-- Python substring test `pat in s`. -/
def strContains (s pat : String) : Bool := strContainsL pat.toList s.toList

/-- SQL `LIKE` matching with `%`, `_` and backslash escapes, fuelled so that
the definition is structural (the fuel used below is always sufficient). -/
def sqlLikeF : Nat → List Char → List Char → Bool
  | 0, _, _ => false
  | _ + 1, [], s => s.isEmpty
  | fuel + 1, c :: p, s =>
    if c == '%' then
      sqlLikeF fuel p s ||
      (match s with
       | [] => false
       | _ :: s2 => sqlLikeF fuel (c :: p) s2)
    else if c == '_' then
      (match s with
       | [] => false
       | _ :: s2 => sqlLikeF fuel p s2)
    else if c == '\\' then
      (match p, s with
       | e :: p2, c2 :: s2 => e == c2 && sqlLikeF fuel p2 s2
       | _, _ => false)
    else
      (match s with
       | [] => false
       | c2 :: s2 => c == c2 && sqlLikeF fuel p s2)

/-- SQL `LIKE` on strings. -/
def sqlLikeS (pat s : String) : Bool :=
  sqlLikeF (pat.length + s.length + 1) pat.toList s.toList

/-- The pattern `f"%{x}%"` built by the source around search terms. -/
def likePat (x : String) : String := "%" ++ x ++ "%"

/-- Python truthiness of an optional string: `None` and `""` are falsy. -/
def pyTruthy : Option String → Bool
  | none => false
  | some s => !(s == "")

/-- Stable insertion (ascending by key, later elements after equal keys). -/
def keyLe (a b : Nat × Nat) : Bool :=
  Nat.blt a.1 b.1 || (a.1 == b.1 && Nat.ble a.2 b.2)

/-- Insert into a key-sorted list after all existing entries of ≤ key. -/
def insKeyed {α : Type} (key : α → Nat × Nat) (x : α) : List α → List α
  | [] => [x]
  | y :: ys => if keyLe (key y) (key x) then y :: insKeyed key x ys else x :: y :: ys

/-- Stable sort by a numeric key pair; models `ORDER BY` with ties kept in
table order. -/
def stableSort {α : Type} (key : α → Nat × Nat) (l : List α) : List α :=
  l.foldl (fun acc x => insKeyed key x acc) []

/-- First successful application of an option-valued function over a list,
modelling ordered regex alternation. -/
def firstSome {α β : Type} (f : α → Option β) : List α → Option β
  | [] => none
  | a :: rest =>
    match f a with
    | some b => some b
    | none => firstSome f rest

/-- Whitespace split (Python `str.split()`); the accumulator holds the
current word reversed. -/
def splitAux : List Char → List Char → List (List Char)
  | [], acc => if acc.isEmpty then [] else [acc.reverse]
  | c :: cs, acc =>
    if isPySpace c then
      if acc.isEmpty then splitAux cs [] else acc.reverse :: splitAux cs []
    else splitAux cs (c :: acc)

/-- Join strings with a separator (Python `sep.join`). -/
def joinWith (sep : String) : List String → String
  | [] => ""
  | [x] => x
  | x :: y :: xs => x ++ sep ++ joinWith sep (y :: xs)

/-- Deduplicate keeping first occurrences.  The source builds
`list(set(...))`, whose order is unspecified; every downstream use is
order-insensitive, so the first-occurrence order is a canonical choice. -/
def dedupAux : List String → List String → List String
  | _, [] => []
  | seen, x :: xs =>
    if seen.contains x then dedupAux seen xs else x :: dedupAux (x :: seen) xs

/-- Deduplicate a keyword list. -/
def dedupFirst (l : List String) : List String := dedupAux [] l

/-! ## Data model of the relational store (`database_utils.py`) -/

/-- Row of the `tickets` table (`init_ticket_db`): `response` is nullable,
`created_at` is a timestamp (modelled as a `Nat`). -/
structure Ticket where
  ticket_id : String
  user_name : String
  issue : String
  response : Option String
  status : String
  created_at : Nat
deriving DecidableEq, Repr

/-- Row of the `teams` table used by `query_team_info`. -/
structure TeamMember where
  name : String
  bio : String
deriving DecidableEq, Repr

/-- Row of the `faq` table used by `query_faq`. -/
structure FaqRow where
  question : String
  answer : String
deriving DecidableEq, Repr

/-- The relational store.  `faqExists` models the `SHOW TABLES LIKE 'faq'`
probe of `query_faq`. -/
structure Database where
  tickets : List Ticket
  teams : List TeamMember
  faq : List FaqRow
  faqExists : Bool
deriving DecidableEq, Repr

/-- Execution environment of a database call: the store plus whether
`get_db_connection` succeeds (`connOk = false` models the raised
`ConnectionError`, which every function in `database_utils.py` catches). -/
structure Env where
  db : Database
  connOk : Bool
deriving DecidableEq, Repr

/-! ## `database_utils.py` -/

/-- Later-row preference on strictly larger `created_at`; folding it models
`ORDER BY created_at DESC LIMIT 1` with ties kept in table order. -/
def pickLatest : Option Ticket → Ticket → Option Ticket
  | none, t => some t
  | some b, t => if b.created_at < t.created_at then some t else some b

/-- The row produced by
`SELECT response FROM tickets WHERE issue = %s AND response IS NOT NULL
ORDER BY created_at DESC LIMIT 1`. -/
def ticketAnswerRow (tickets : List Ticket) (question : String) : Option Ticket :=
  (tickets.filter (fun t => t.issue == question && t.response.isSome)).foldl pickLatest none

/-- `create_support_ticket`: inserts an open ticket with a generated id
`TKT-` + first 8 hex chars uppercased; `freshHex` injects the `uuid4().hex`
randomness and `now` the insertion timestamp.  Returns the generated id (or
`none` when the connection fails, as the caught `ConnectionError` does) and
the resulting store. -/
def create_support_ticket (env : Env) (freshHex : String) (now : Nat)
    (user_name issue : String) : Option String × Database :=
  if env.connOk then
    let ticket_id := "TKT-" ++ pyUpper (strTake freshHex 8)
    let t : Ticket := ⟨ticket_id, user_name, issue, none, "open", now⟩
    (some ticket_id, ⟨env.db.tickets ++ [t], env.db.teams, env.db.faq, env.db.faqExists⟩)
  else (none, env.db)

/-- `get_ticket_by_id`: `SELECT ... FROM tickets WHERE ticket_id = %s`,
`fetchone` takes the first matching row; `None` on connection failure. -/
def get_ticket_by_id (env : Env) (ticket_id : String) : Option Ticket :=
  if env.connOk then env.db.tickets.find? (fun t => t.ticket_id == ticket_id)
  else none

/-- `query_ticket_answer`: response of the most recent past ticket whose
issue equals the question and whose response is non-null; `None` when there
is none or the connection fails. -/
def query_ticket_answer (env : Env) (question : String) : Option String :=
  if env.connOk then
    match ticketAnswerRow env.db.tickets question with
    | some t => t.response
    | none => none
  else none

/-- Stop-word set of `extract_keywords`. -/
def stopWords : List String :=
  ["the", "a", "an", "and", "or", "but", "is", "are", "was", "were", "what",
   "when", "where", "why", "how", "your", "you", "me", "my", "our", "we",
   "us", "i", "he", "she", "it", "they", "them", "this", "that", "these",
   "those", "to", "for", "with", "by", "at", "on", "in", "of", "about",
   "as", "if", "then", "than", "so", "because", "can", "could", "would",
   "should", "will", "shall", "may", "might"]

/-- One left-to-right pass implementing
`re.findall(r"\b[a-zA-Z]{3,}\b", text)`: a maximal alphabetic run is a
match exactly when it has length at least 3 and the characters adjacent to
it (when present) are non-word characters.  `leftOK` records whether the
character before the current run permits a `\b`; the accumulator holds the
current run reversed. -/
def scanWords : List Char → Bool → List Char → List String
  | [], leftOK, run =>
    if decide (3 ≤ run.length) && leftOK && !run.isEmpty then [String.mk run.reverse] else []
  | c :: cs, leftOK, run =>
    if c.isAlpha then scanWords cs leftOK (c :: run)
    else
      (if decide (3 ≤ run.length) && leftOK && !(isWordChar c) then [String.mk run.reverse] else []) ++
      scanWords cs (!(isWordChar c)) []

/-- `extract_keywords`: alphabetic words of length ≥ 3 of the lowercased
question, minus stop words, deduplicated. -/
def extract_keywords (question : String) : List String :=
  let words := scanWords (pyLower question).toList true []
  dedupFirst (words.filter (fun w => !(stopWords.contains w)))

/-- Ordered alternation of the first name-extraction regex. -/
def p1Triggers : List (List Char) :=
  ["who is".toList, "tell me about".toList, "what does".toList,
   ("who" ++ aposS ++ "s").toList, "what is".toList]

/-- Continuation of pattern 1 after a trigger: matches
`\s+([a-zA-Z\s]+)(?:'s)?` and returns group 1.  The greedy `\s+` consumes
the whitespace prefix of the maximal `[a-zA-Z\s]` run unless the run is
whitespace-only, when backtracking leaves its last character to the group;
the optional `'s` never changes the group. -/
def matchTrigTail (cs : List Char) : Option (List Char) :=
  match cs with
  | [] => none
  | c :: _ =>
    if isPySpace c then
      let run := cs.takeWhile isClassChar
      let ws := run.takeWhile isPySpace
      if ws.length < run.length then some (run.drop ws.length)
      else if 2 ≤ run.length then some (run.drop (run.length - 1))
      else none
    else none

/-- Full first pattern attempted at one position. -/
def p1At (cs : List Char) : Option (List Char) :=
  firstSome (fun t => (litAt t cs).bind matchTrigTail) p1Triggers

/-- Leftmost `re.search` for pattern 1
`(?:who is|tell me about|what does|who's|what is)\s+([a-zA-Z\s]+)(?:'s)?`. -/
def p1Search : List Char → Option (List Char)
  | [] => none
  | c :: rest =>
    match p1At (c :: rest) with
    | some g => some g
    | none => p1Search rest

/-- Tail alternatives `(?:\s+profile|info|bio|other name|role)?$` of
pattern 2: the remainder after `'s` must be empty or exactly one of the
literal alternatives (with `\s+profile` taking a nonempty whitespace run). -/
def p2CTail (r : List Char) : Bool :=
  r.isEmpty || r == "info".toList || r == "bio".toList ||
  r == "other name".toList || r == "role".toList ||
  (let ws := r.takeWhile isPySpace
   !ws.isEmpty && r.drop ws.length == "profile".toList)

/-- Pattern 2 `([a-zA-Z\s]+)(?:'s)?(?:\s+profile|info|bio|other name|role)?$`
attempted at one position: the greedy group takes the maximal class run;
the whole remainder must then be consumed, which is possible only by an
immediate `'s` followed by a tail alternative (no shorter group can absorb
the non-class character that stopped the run). -/
def p2At (u : List Char) : Option (List Char) :=
  let A := u.takeWhile isClassChar
  if A.isEmpty then none
  else
    match u.drop A.length with
    | [] => some A
    | c1 :: c2 :: r2 =>
      if c1 == apos && c2 == 's' && p2CTail r2 then some A else none
    | _ => none

/-- Leftmost `re.search` for pattern 2. -/
def p2Search : List Char → Option (List Char)
  | [] => none
  | c :: rest =>
    match p2At (c :: rest) with
    | some g => some g
    | none => p2Search rest

/-- A matched regex group, stripped; kept only when longer than 2. -/
def tryGroup (g : Option (List Char)) : Option String :=
  match g with
  | none => none
  | some cs =>
    let name := String.mk (pyStripL cs)
    if 2 < name.length then some name else none

/-- `extract_name_from_question`: the two regex patterns in order on the
lowercased stripped question, then the capitalized-words fallback (vacuous
on an already lowercased ASCII string, kept for fidelity). -/
def extract_name_from_question (question : String) : Option String :=
  let ql := pyStripL (pyLower question).toList
  match tryGroup (p1Search ql) with
  | some n => some n
  | none =>
    match tryGroup (p2Search ql) with
    | some n => some n
    | none =>
      let words := splitAux ql []
      let caps := words.filter (fun w => match w with | [] => false | c :: _ => c.isUpper)
      if caps.isEmpty then none else some (joinWith " " (caps.map String.mk))

/-- `format_team_response`. -/
def format_team_response (t : TeamMember) : String := t.name ++ ": " ++ t.bio

/-- `query_team_info`: extract a name, then exact match on
`LOWER(name) = %s`, then partial match on `LOWER(name) LIKE %name%`,
each `LIMIT 1`; `None` on no name, no row, or connection failure. -/
def query_team_info (env : Env) (question : String) : Option String :=
  match extract_name_from_question question with
  | none => none
  | some name =>
    if env.connOk then
      let nl := pyLower name
      match env.db.teams.find? (fun t => pyLower t.name == nl) with
      | some t => some (format_team_response t)
      | none =>
        match env.db.teams.find? (fun t => sqlLikeS (likePat nl) (pyLower t.name)) with
        | some t => some (format_team_response t)
        | none => none
    else none

/-- The llm assist of `query_faq` reduced to its observable choice: given
the question and candidate rows, the oracle yields the 1-based index parsed
from `llm.invoke(...)`, or `none` when parsing raises. -/
abbrev LlmSel : Type := String → List FaqRow → Option Nat

/-- Fallback row used by `get?` defaults; never observable because every
access below is guarded by a nonemptiness test. -/
def faqDefault : FaqRow := ⟨"", ""⟩

/-- `query_faq_with_llm`: use the selected index when it lies in
`1..len(results)`, otherwise the first row's answer (also on exception). -/
def query_faq_with_llm (sel : LlmSel) (question : String)
    (faq_results : List FaqRow) : String :=
  match sel question faq_results with
  | some idx =>
    if Nat.ble 1 idx && Nat.ble idx faq_results.length then
      ((faq_results.get? (idx - 1)).getD faqDefault).answer
    else ((faq_results.get? 0).getD faqDefault).answer
  | none => ((faq_results.get? 0).getD faqDefault).answer

/-- Relevance `CASE` of the keyword query: 1 when the row's question
contains the whole lowercased user question, 2 when its answer does, else 3. -/
def faqRelevance (question : String) (r : FaqRow) : Nat :=
  if sqlLikeS (likePat (pyLower question)) (pyLower r.question) then 1
  else if sqlLikeS (likePat (pyLower question)) (pyLower r.answer) then 2
  else 3

/-- `WHERE` disjunction of the keyword query: some keyword occurs in the
row's lowercased question or answer. -/
def faqRowMatches (keywords : List String) (r : FaqRow) : Bool :=
  keywords.any (fun k =>
    sqlLikeS (likePat k) (pyLower r.question) || sqlLikeS (likePat k) (pyLower r.answer))

/-- Final fallback query of `query_faq`:
`WHERE LOWER(question) LIKE %q% OR LOWER(answer) LIKE %q%
ORDER BY LENGTH(question) LIMIT 1`. -/
def query_faq_fallback (env : Env) (question : String) : Option String :=
  let rows := env.db.faq.filter (fun r =>
    sqlLikeS (likePat (pyLower question)) (pyLower r.question) ||
    sqlLikeS (likePat (pyLower question)) (pyLower r.answer))
  match (stableSort (fun r => (r.question.length, 0)) rows).head? with
  | some r => some r.answer
  | none => none

/-- `query_faq`: connection, table probe, keyword query ordered by
`(relevance, LENGTH(question))` limited to 3 (llm assist only when an llm
is passed and more than one row survives), then the fallback query. -/
def query_faq (env : Env) (question : String) (llm : Option LlmSel) : Option String :=
  if !env.connOk then none
  else if !env.db.faqExists then none
  else
    let keywords := extract_keywords question
    if !keywords.isEmpty then
      let rows := env.db.faq.filter (faqRowMatches keywords)
      let ranked := (stableSort (fun r => (faqRelevance question r, r.question.length)) rows).take 3
      if !ranked.isEmpty then
        match llm with
        | some sel =>
          if Nat.blt 1 ranked.length then some (query_faq_with_llm sel question ranked)
          else some (((ranked.get? 0).getD faqDefault).answer)
        | none => some (((ranked.get? 0).getD faqDefault).answer)
      else query_faq_fallback env question
    else query_faq_fallback env question

/-- Keyword list of `is_general_question`. -/
def generalKeywords : List String :=
  ["what", "when", "where", "why", "how", "can", "could", "would", "should",
   "hours", "time", "open", "close", "location", "address", "contact",
   "phone", "email", "price", "cost", "service", "support", "help",
   "business", "work", "operating", "available", "hour", "schedule", "timing"]

/-- `is_general_question`: some general keyword occurs in the lowercased
question. -/
def is_general_question (question : String) : Bool :=
  generalKeywords.any (fun k => strContains (pyLower question) k)

/-- Result dictionary of `database_query_tool`. -/
structure DbResult where
  response : String
  found : Bool
deriving DecidableEq, Repr

/-- `database_query_tool`: FAQ first for general questions, then team info,
then FAQ for non-general questions, each hit subject to Python truthiness;
otherwise the not-found sentinel. -/
def database_query_tool (env : Env) (question : String) (llm : Option LlmSel) : DbResult :=
  let general := is_general_question question
  let faq1 := if general then query_faq env question llm else none
  if pyTruthy faq1 then ⟨faq1.getD "", true⟩
  else
    let team := query_team_info env question
    if pyTruthy team then ⟨team.getD "", true⟩
    else
      let faq2 := if !general then query_faq env question llm else none
      if pyTruthy faq2 then ⟨faq2.getD "", true⟩
      else ⟨"No information found.", false⟩

/-! ## `agent_tools.py` -/

/-- `query_database_tool`: past resolved tickets first (subject to Python
truthiness), then `database_query_tool`; the sentinel marker when nothing is
found.  The surrounding `try/except` cannot fire because every callee
catches its own store errors, so the tool is total. -/
def query_database_tool (env : Env) (question : String) : String :=
  let ticket_answer := query_ticket_answer env question
  if pyTruthy ticket_answer then ticket_answer.getD ""
  else
    let result := database_query_tool env question none
    if result.found then result.response else "___NO_INFO_FOUND___"

/-- `create_support_ticket_tool`: ask for confirmation (`confirmInput` is
the raw `input()` reply); any stripped lowercased reply other than
`yes`/`y` is a no-op.  Returns the user-facing text and the resulting
store. -/
def create_support_ticket_tool (env : Env) (freshHex : String) (now : Nat)
    (confirmInput user_question user_name : String) : String × Database :=
  let confirm := pyLower (pyStrip confirmInput)
  if !(confirm == "yes" || confirm == "y") then
    ("Okay, no ticket was created.", env.db)
  else
    match create_support_ticket env freshHex now user_name user_question with
    | (tid, db2) =>
      if pyTruthy tid then
        ("Support ticket #" ++ tid.getD "" ++ " created successfully. Our team will respond soon.", db2)
      else ("Failed to create a support ticket. Please try again later.", db2)

/-- `check_ticket_status_tool`: not-found text when `get_ticket_by_id`
yields nothing (including on connection failure), otherwise the formatted
status with the response or a pending note (response subject to Python
truthiness). -/
def check_ticket_status_tool (env : Env) (ticket_id : String) : String :=
  match get_ticket_by_id env ticket_id with
  | none => "Ticket " ++ ticket_id ++ " not found."
  | some t =>
    if pyTruthy t.response then
      "Ticket " ++ ticket_id ++ " (" ++ t.status ++ ")\nIssue: " ++ t.issue ++
        "\nResponse: " ++ t.response.getD ""
    else
      "Ticket " ++ ticket_id ++ " (" ++ t.status ++ ")\nIssue: " ++ t.issue ++
        "\nResponse: Pending from support."

/-! ## `rag_system.py`: document change tracker -/

/-- A file of the `documents` directory: its name, byte content (modelled
as a string) and whether it is a regular file (`os.path.isfile`). -/
structure SrcFile where
  name : String
  content : String
  isFile : Bool
deriving DecidableEq, Repr

/-- The scanned directory listing, in `os.listdir` order. -/
abbrev FileSys : Type := List SrcFile

/-- Entry of `document_tracker.json`. -/
structure TrackEntry where
  hash : String
  filename : String
  last_processed : String
  size : Nat
deriving DecidableEq, Repr

/-- The tracker dictionary, keyed by `f"{filename}_{size}"`, in insertion
order as a Python dict. -/
abbrev Tracker : Type := List (String × TrackEntry)

/-- Dictionary lookup (first binding of the key). -/
def lookupT : Tracker → String → Option TrackEntry
  | [], _ => none
  | (k2, e) :: rest, k => if k2 == k then some e else lookupT rest k

/-- Dictionary assignment: replace in place or append. -/
def setT : Tracker → String → TrackEntry → Tracker
  | [], k, e => [(k, e)]
  | (k2, e2) :: rest, k, e =>
    if k2 == k then (k, e) :: rest else (k2, e2) :: setT rest k e

/-- `os.path.splitext(...)[1]`: the extension starts at the last dot of the
name, except that the leading dots of the name never start an extension. -/
def extOf (name : String) : String :=
  let cs := name.toList
  let lead := cs.takeWhile (fun c => c == '.')
  let rest := cs.drop lead.length
  let revp := rest.reverse.takeWhile (fun c => !(c == '.'))
  if revp.length == rest.length then ""
  else String.mk ('.' :: revp.reverse)

/-- Supported document extensions. -/
def supportedExtensions : List String := [".txt", ".pdf", ".docx", ".doc"]

/-- Guard applied to every listed file by both the scan and the tracker
update: supported extension and a regular file. -/
def fileGuard (f : SrcFile) : Bool :=
  supportedExtensions.contains (pyLower (extOf f.name)) && f.isFile

/-- Tracker key `f"{filename}_{os.path.getsize(filepath)}"`. -/
def fileKey (f : SrcFile) : String := f.name ++ "_" ++ toString f.content.length

/-- Path `os.path.join(DOCUMENTS_DIR, filename)`. -/
def docPath (f : SrcFile) : String := "documents/" ++ f.name

/-- Loop body of `get_new_or_modified_documents` for one listed file:
skip unsupported or non-regular files and hash failures; mark the file
when its key is absent from the tracker or stored with a different hash. -/
def scanFile (hashf : String → Option String) (tr : Tracker) (f : SrcFile) :
    Option String :=
  if !(fileGuard f) then none
  else
    match hashf f.content with
    | none => none
    | some h =>
      match lookupT tr (fileKey f) with
      | none => some (docPath f)
      | some e => if !(e.hash == h) then some (docPath f) else none

/-- `get_new_or_modified_documents`: every supported regular file whose
hash is computable and whose key is absent from the tracker or stored with
a different hash.  `hashf` injects `get_file_hash` (`none` models a read
error, which skips the file). -/
def get_new_or_modified_documents (hashf : String → Option String)
    (fs : FileSys) (tr : Tracker) : List String :=
  fs.filterMap (scanFile hashf tr)

/-- Single-file step of `update_document_tracker`. -/
def trackStep (hashf : String → Option String) (now : String)
    (tr : Tracker) (f : SrcFile) : Tracker :=
  if !(fileGuard f) then tr
  else
    match hashf f.content with
    | none => tr
    | some h => setT tr (fileKey f) ⟨h, f.name, now, f.content.length⟩

/-- `update_document_tracker`: record hash, filename, timestamp and size
for every supported regular file, left to right; entries of vanished files
are kept. -/
def update_document_tracker (hashf : String → Option String) (now : String) :
    FileSys → Tracker → Tracker
  | [], tr => tr
  | f :: fs, tr => update_document_tracker hashf now fs (trackStep hashf now tr f)

/-! ## `rag_system.py`: retrieval answerer -/

/-- Environment of `rag_search`: `ok = false` models a raised exception in
any downstream call (vector store, embeddings or llm), which the function's
`try/except` turns into `None`; `chunkCount` is `_collection.count()`;
`retrieve` is the top-k similarity retriever; `llm` maps the question and
the concatenated context to `response.content`. -/
structure RagEnv where
  ok : Bool
  chunkCount : Nat
  retrieve : String → List String
  llm : String → String → String

/-- Fixed not-found phrases checked on the lowercased response. -/
def notFoundPhrases : List String :=
  ["not in the documentation", "couldn" ++ aposS ++ "t find",
   "don" ++ aposS ++ "t have that information", "not contained"]

/-- `rag_search`: `None` on a downstream exception, on an empty collection,
on an empty retrieval, or when the stripped response contains a not-found
phrase; otherwise the stripped response text. -/
def rag_search (env : RagEnv) (query : String) : Option String :=
  if !env.ok then none
  else if env.chunkCount == 0 then none
  else
    let relevant_docs := env.retrieve query
    if relevant_docs.isEmpty then none
    else
      let context := joinWith "\n\n" relevant_docs
      let response_text := pyStrip (env.llm query context)
      if notFoundPhrases.any (fun p => strContains (pyLower response_text) p) then none
      else some response_text

/-- `query_rag_tool` (in `agent_tools.py`): the search result when truthy,
else the no-information text; total because `rag_search` is. -/
def query_rag_tool (env : RagEnv) (question : String) : String :=
  let result := rag_search env question
  if pyTruthy result then result.getD ""
  else "No relevant information found in documentation."

/-! ## `agent_graph.py` -/

/-- Role tag of a langchain message. -/
inductive Role where
  | human
  | ai
  | toolMsg
deriving DecidableEq, Repr

/-- A langchain message: role, content, and whether
`additional_kwargs["tool_calls"]` is present and nonempty.  Messages built
by the source as `AIMessage(content=...)` or `HumanMessage(content=...)`
carry no tool calls. -/
structure Msg where
  role : Role
  content : String
  hasToolCalls : Bool
deriving DecidableEq, Repr

/-- A capability invocation requested by the model and executed by a tool
runtime (tool name and input); the observable side effect of a turn. -/
structure Invocation where
  tool : String
  input : String
deriving DecidableEq, Repr

/-- The graph state `AgentState`. -/
structure AgentState where
  chat_history : List Msg
  agent_outcome : List (String × String)
deriving DecidableEq, Repr

/-- The value returned by `agent_executor.invoke`, as discriminated by
`run_agent`: a bare message, a dict with `output` and `intermediate_steps`,
or anything else (converted by `str`). -/
inductive ExecResult where
  | message (m : Msg)
  | dictResult (output : String) (intermediate_steps : List (String × String))
  | otherResult (s : String)
deriving Repr

/-- The agent-executor oracle: given the cycle number and current state it
yields the executor's result together with the capability invocations the
executor ran while producing it. -/
abbrev ExecOracle : Type := Nat → AgentState → ExecResult × List Invocation

/-- The tools-node oracle: the messages the `ToolNode` appends and the
capability invocations it executes. -/
abbrev ToolOracle : Type := Nat → AgentState → List Msg × List Invocation

/-- `chat_history[-1]` with the default used nowhere observable (the
history is nonempty whenever it is read). -/
def lastMsgD (l : List Msg) : Msg := l.getLastD ⟨.ai, "", false⟩

/-- `run_agent`: invoke the executor and append to the history either the
returned message itself, or a fresh `AIMessage` holding the dict output
(resp. the stringified result); the scratchpad keeps the dict's
intermediate steps and is cleared otherwise. -/
def run_agent (exec : ExecOracle) (cyc : Nat) (st : AgentState) :
    AgentState × List Invocation :=
  match exec cyc st with
  | (.message m, inv) => (⟨st.chat_history ++ [m], []⟩, inv)
  | (.dictResult out steps, inv) => (⟨st.chat_history ++ [⟨.ai, out, false⟩], steps⟩, inv)
  | (.otherResult s, inv) => (⟨st.chat_history ++ [⟨.ai, s, false⟩], []⟩, inv)

/-- `should_continue`: route on whether the last history message carries
tool calls. -/
def should_continue (st : AgentState) : String :=
  if (lastMsgD st.chat_history).hasToolCalls then "continue_tool_call" else "end"

/-- One compiled-graph execution (`agent` node, conditional edge, `tools`
node, back to `agent`), with explicit fuel standing for the absence of any
iteration cap in the source: `none` means the run is still looping after
`fuel` reasoning/execution cycles.  The accumulated invocation log is the
turn's side-effect trace. -/
def runGraph (exec : ExecOracle) (tools : ToolOracle) :
    Nat → Nat → AgentState → List Invocation → Option (AgentState × List Invocation)
  | 0, _, _, _ => none
  | fuel + 1, cyc, st, log =>
    match run_agent exec cyc st with
    | (st1, inv1) =>
      if should_continue st1 == "continue_tool_call" then
        match tools cyc st1 with
        | (msgs, inv2) =>
          runGraph exec tools fuel (cyc + 1)
            ⟨st1.chat_history ++ msgs, st1.agent_outcome⟩ (log ++ inv1 ++ inv2)
      else some (st1, log ++ inv1)

/-- Initial state built by `process_graph_with_agent`: the prior history
with the user message appended, and an empty scratchpad. -/
def initState (user_input : String) (conversation_history : List Msg) : AgentState :=
  ⟨conversation_history ++ [⟨.human, user_input, false⟩], []⟩

/-- `process_graph_with_agent`: drain `app.stream(initial_state)` fully,
then run `app.invoke(initial_state)` on the same initial state, and return
the last message of the final history.  Both runs execute the whole graph,
so the returned invocation log is the single-run log twice; `none` models
the run never finishing within the fuel. -/
def process_graph_with_agent (exec : ExecOracle) (tools : ToolOracle) (fuel : Nat)
    (user_input : String) (conversation_history : List Msg) :
    Option (Msg × List Invocation) :=
  let init := initState user_input conversation_history
  match runGraph exec tools fuel 0 init [] with
  | none => none
  | some (_, log1) =>
    match runGraph exec tools fuel 0 init [] with
    | none => none
    | some (final_state, log2) =>
      some (lastMsgD final_state.chat_history, log1 ++ log2)

/-! ## `api.py` -/

/-- Transport message of the HTTP layer. -/
structure ApiMessage where
  content : String
  type : String
deriving DecidableEq, Repr

/-- `/chat` request body. -/
structure ChatRequest where
  user_input : String
  conversation_history : List ApiMessage
deriving DecidableEq, Repr

/-- Outcome of the `/chat` handler: a normal response or the
`HTTPException(status_code=500, detail=...)` raised by the handler's
`except` clause. -/
inductive ChatResult where
  | response (agent_response : String) (updated : List ApiMessage)
  | httpError (code : Nat) (detail : String)
deriving DecidableEq, Repr

/-- `convert_to_langchain_messages`: keep `human`/`ai` typed messages. -/
def convert_to_langchain_messages (history : List ApiMessage) : List Msg :=
  history.filterMap (fun m =>
    if m.type == "human" then some ⟨.human, m.content, false⟩
    else if m.type == "ai" then some ⟨.ai, m.content, false⟩
    else none)

/-- `convert_from_langchain_messages`: keep human/ai messages, drop the
rest. -/
def convert_from_langchain_messages (history : List Msg) : List ApiMessage :=
  history.filterMap (fun m =>
    match m.role with
    | .human => some ⟨m.content, "human"⟩
    | .ai => some ⟨m.content, "ai"⟩
    | .toolMsg => none)

/-- Conversational keyword probe of `api.py`. -/
def is_conversational (query : String) : Bool :=
  ["hello", "hi", "hey", "how are you", "good morning", "good afternoon",
   "good evening"].any (fun k => strContains (pyStrip (pyLower query)) k)

/-- Goodbye keyword probe of `api.py`. -/
def is_goodbye (query : String) : Bool :=
  ["bye", "goodbye", "see you", "farewell", "take care"].any
    (fun k => strContains (pyStrip (pyLower query)) k)

/-- `handle_conversational_query`. -/
def handle_conversational_query (query : String) : String :=
  let ql := pyStrip (pyLower query)
  if ["hello", "hi", "hey", "howdy"].any (fun g => strContains ql g) then
    "Hello! I" ++ aposS ++ "m your autonomous customer support agent. How can I help you today?"
  else if strContains ql "how are you" then
    "I" ++ aposS ++ "m functioning well, thank you! I" ++ aposS ++
      "m here to help you with any questions using my available tools."
  else if ["good morning", "morning"].any (fun g => strContains ql g) then
    "Good morning! What can I assist you with today?"
  else if is_goodbye ql then
    "Goodbye! Thank you for chatting with me. Have a great day!"
  else "I" ++ aposS ++ "m here to help! How can I assist you today?"

/-- A Python runtime value at the point the handler receives the return of
`process_graph_with_agent`: the source annotates it as a message list but it
is in fact a single message. -/
inductive PyVal where
  | pymsg (m : Msg)
  | pylist (l : List Msg)
deriving Repr

/-- Python `value[-1]`: last element of a list, a `TypeError` on a message
(langchain messages are pydantic models without `__getitem__`). -/
def pyLastItem : PyVal → Except String Msg
  | .pylist l =>
    match l.getLast? with
    | some m => .ok m
    | none => .error "IndexError: list index out of range"
  | .pymsg _ => .error "TypeError: AIMessage object is not subscriptable"

/-- Python `for msg in value`: iteration over a list, a `TypeError` on a
message. -/
def pyIterMsgs : PyVal → Except String (List Msg)
  | .pylist l => .ok l
  | .pymsg _ => .error "TypeError: AIMessage object is not iterable"

/-- Body of the handler's `try` block on the non-conversational path:
convert the history, append the user message, call the agent, then index
and iterate the returned value as if it were a list.  A `none` agent result
models the graph run not finishing (the recursion-limit error raised inside
`invoke`). -/
def chatBody (exec : ExecOracle) (tools : ToolOracle) (fuel : Nat)
    (req : ChatRequest) : Except String (String × List ApiMessage) := do
  let langchain_history := convert_to_langchain_messages req.conversation_history
  let langchain_history := langchain_history ++ [⟨.human, req.user_input, false⟩]
  let response_history : PyVal ←
    match process_graph_with_agent exec tools fuel req.user_input langchain_history with
    | none => .error "GraphRecursionError"
    | some (m, _) => .ok (.pymsg m)
  let agent_response_message ← pyLastItem response_history
  let msgs ← pyIterMsgs response_history
  pure (agent_response_message.content, convert_from_langchain_messages msgs)

/-- `chat_with_agent`: conversational queries are answered directly; the
rest goes through `chatBody`, whose raised errors become an HTTP 500. -/
def chat_with_agent (exec : ExecOracle) (tools : ToolOracle) (fuel : Nat)
    (req : ChatRequest) : ChatResult :=
  if is_conversational req.user_input || is_goodbye req.user_input then
    let response_content := handle_conversational_query req.user_input
    let temp := convert_to_langchain_messages req.conversation_history ++
      [⟨.human, req.user_input, false⟩, ⟨.ai, response_content, false⟩]
    .response response_content (convert_from_langchain_messages temp)
  else
    match chatBody exec tools fuel req with
    | .ok (c, updated) => .response c updated
    | .error e => .httpError 500 e

/-! ## Tracker lemmas (document change tracker) -/

/-- Keys written by a tracker update over a listing, in update order: one
key per supported regular file whose hash is computable.  Distinct file
names yield distinct keys (the size suffix after the final underscore is
all digits), so for a real directory listing this list is duplicate-free. -/
def writtenKeys (hashf : String → Option String) (fs : FileSys) : List String :=
  fs.filterMap (fun f =>
    if fileGuard f then (hashf f.content).map (fun _ => fileKey f) else none)

/-- Dictionary assignment then lookup. -/
theorem lookupT_setT (tr : Tracker) (k k2 : String) (e : TrackEntry) :
    lookupT (setT tr k e) k2 = if k2 = k then some e else lookupT tr k2 := by
  induction tr with
  | nil =>
    by_cases h : k2 = k
    · simp [setT, lookupT, h]
    · simp [setT, lookupT, beq_iff_eq, h, Ne.symm h]
  | cons p rest ih =>
    obtain ⟨k3, e3⟩ := p
    by_cases h3 : k3 = k
    · subst h3
      by_cases h : k2 = k3
      · simp [setT, lookupT, h]
      · simp [setT, lookupT, beq_iff_eq, h, Ne.symm h]
    · by_cases h : k2 = k
      · subst h
        simp [setT, lookupT, beq_iff_eq, h3, ih, Ne.symm h3]
      · simp [setT, lookupT, beq_iff_eq, h3, ih, h]

/-- A key no listed file writes is untouched by the tracker update. -/
theorem lookupT_update_not_written (hashf : String → Option String) (now : String)
    (fs : FileSys) (tr : Tracker) (k : String)
    (hk : k ∉ writtenKeys hashf fs) :
    lookupT (update_document_tracker hashf now fs tr) k = lookupT tr k := by
  induction fs generalizing tr with
  | nil => rfl
  | cons f fs ih =>
    rw [update_document_tracker]
    by_cases hg : fileGuard f
    · cases hh : hashf f.content with
      | none =>
        have hk2 : k ∉ writtenKeys hashf fs := by
          simpa [writtenKeys, List.filterMap_cons, hg, hh] using hk
        rw [ih _ hk2]
        simp [trackStep, hg, hh]
      | some h =>
        have hsplit : writtenKeys hashf (f :: fs) = fileKey f :: writtenKeys hashf fs := by
          simp [writtenKeys, List.filterMap_cons, hg, hh]
        rw [hsplit] at hk
        have hk1 : k ≠ fileKey f := fun he => hk (he ▸ List.mem_cons_self _ _)
        have hk2 : k ∉ writtenKeys hashf fs := fun hm => hk (List.mem_cons_of_mem _ hm)
        rw [ih _ hk2]
        simp [trackStep, hg, hh, lookupT_setT, hk1]
    · have hk2 : k ∉ writtenKeys hashf fs := by
        simpa [writtenKeys, List.filterMap_cons, hg] using hk
      rw [ih _ hk2]
      simp [trackStep, hg]

/-- After a tracker update over a duplicate-free listing, every supported
regular file with a computable hash is stored at its key with exactly the
current hash, name, timestamp and size. -/
theorem lookupT_update_written (hashf : String → Option String) (now : String)
    (fs : FileSys) (tr : Tracker) (f : SrcFile) (h : String)
    (hmem : f ∈ fs) (hg : fileGuard f = true) (hh : hashf f.content = some h)
    (hnd : (writtenKeys hashf fs).Nodup) :
    lookupT (update_document_tracker hashf now fs tr) (fileKey f) =
      some ⟨h, f.name, now, f.content.length⟩ := by
  induction fs generalizing tr with
  | nil => cases hmem
  | cons g fs ih =>
    rw [update_document_tracker]
    rcases List.mem_cons.mp hmem with rfl | hmem2
    · have hsplit : writtenKeys hashf (f :: fs) = fileKey f :: writtenKeys hashf fs := by
        simp [writtenKeys, List.filterMap_cons, hg, hh]
      rw [hsplit] at hnd
      have hkf : fileKey f ∉ writtenKeys hashf fs := (List.nodup_cons.mp hnd).1
      rw [lookupT_update_not_written hashf now fs _ _ hkf]
      simp [trackStep, hg, hh, lookupT_setT]
    · have hnd2 : (writtenKeys hashf fs).Nodup := by
        by_cases hgg : fileGuard g
        · cases hhg : hashf g.content with
          | none =>
            simpa [writtenKeys, List.filterMap_cons, hgg, hhg] using hnd
          | some hv =>
            have : writtenKeys hashf (g :: fs) = fileKey g :: writtenKeys hashf fs := by
              simp [writtenKeys, List.filterMap_cons, hgg, hhg]
            rw [this] at hnd
            exact (List.nodup_cons.mp hnd).2
        · simpa [writtenKeys, List.filterMap_cons, hgg] using hnd
      exact ih _ hmem2 hnd2

/-- A file present in a listing with duplicate-free written keys is never
marked when rescanned against the tracker just updated over that listing. -/
theorem scanFile_after_update (hashf : String → Option String) (now : String)
    (fs : FileSys) (tr : Tracker) (f : SrcFile)
    (hmem : f ∈ fs) (hnd : (writtenKeys hashf fs).Nodup) :
    scanFile hashf (update_document_tracker hashf now fs tr) f = none := by
  by_cases hg : fileGuard f
  · cases hh : hashf f.content with
    | none => simp [scanFile, hg, hh]
    | some h =>
      simp [scanFile, hg, hh,
        lookupT_update_written hashf now fs tr f h hmem hg hh hnd]
  · simp [scanFile, hg]

/-- C3: for any document directory, after a scan-and-process cycle that
updates the tracker, a second scan over the same directory with no file
changes marks zero files for reprocessing.  The duplicate-free-keys
hypothesis holds for every real listing, since `os.listdir` yields distinct
names and the key appends the all-digit size after a final underscore. -/
theorem scan_after_update_is_empty (hashf : String → Option String) (now : String)
    (fs : FileSys) (tr : Tracker)
    (hkeys : (writtenKeys hashf fs).Nodup) :
    get_new_or_modified_documents hashf fs (update_document_tracker hashf now fs tr) = [] := by
  unfold get_new_or_modified_documents
  exact List.filterMap_eq_nil_iff.mpr
    (fun f hf => scanFile_after_update hashf now fs tr f hf hkeys)

/-- Witness for C3 at a concrete directory: one supported file, empty
initial tracker, identity hash. -/
def hashW : String → Option String := fun c => some c

/-- Witness theorem for C3. -/
theorem scan_after_update_is_empty_witness :
    get_new_or_modified_documents hashW [(⟨"a.txt", "hello", true⟩ : SrcFile)]
      (update_document_tracker hashW "t0" [(⟨"a.txt", "hello", true⟩ : SrcFile)] []) = [] :=
  scan_after_update_is_empty hashW "t0" [⟨"a.txt", "hello", true⟩] [] (by decide)

/-- C4 counterexample: a tracked directory state in which exactly one
supported file changed since the last tracker update, yet the rescan marks
zero files.  The file `a.txt` was updated while holding `x`, then while
holding `xy`; the tracker keeps the stale `a.txt_1` entry.  Reverting the
content to `x` is a change relative to the last update (`xy`), but the
rescan finds key `a.txt_1` with a matching hash and marks nothing. -/
theorem rescan_misses_reverted_file :
    ("x" : String) ≠ "xy" ∧
    get_new_or_modified_documents hashW [(⟨"a.txt", "x", true⟩ : SrcFile)]
      (update_document_tracker hashW "t1" [(⟨"a.txt", "xy", true⟩ : SrcFile)]
        (update_document_tracker hashW "t0" [(⟨"a.txt", "x", true⟩ : SrcFile)] [])) = [] :=
  ⟨by decide, by decide⟩

/-- C4 (amended): when one supported file's content changes and no stale
tracker entry already carries the new content's hash under the file's new
`name_size` key (automatic when the size is unchanged), a rescan marks
exactly that file, and the subsequent tracker update stores the new hash
under that key. -/
theorem rescan_marks_changed_file (hashf : String → Option String) (now now2 : String)
    (pre post : List SrcFile) (f0 : SrcFile) (c2 h0 h1 : String) (tr0 : Tracker)
    (hg : fileGuard f0 = true)
    (_hh0 : hashf f0.content = some h0) (hh1 : hashf c2 = some h1) (_hne : h0 ≠ h1)
    (hnd : (writtenKeys hashf (pre ++ f0 :: post)).Nodup)
    (hnd2 : (writtenKeys hashf (pre ++ (⟨f0.name, c2, f0.isFile⟩ : SrcFile) :: post)).Nodup)
    (hstale : ∀ e, lookupT (update_document_tracker hashf now (pre ++ f0 :: post) tr0)
        (fileKey ⟨f0.name, c2, f0.isFile⟩) = some e → e.hash ≠ h1) :
    get_new_or_modified_documents hashf (pre ++ (⟨f0.name, c2, f0.isFile⟩ : SrcFile) :: post)
        (update_document_tracker hashf now (pre ++ f0 :: post) tr0) =
      [docPath ⟨f0.name, c2, f0.isFile⟩] ∧
    lookupT (update_document_tracker hashf now2
        (pre ++ (⟨f0.name, c2, f0.isFile⟩ : SrcFile) :: post)
        (update_document_tracker hashf now (pre ++ f0 :: post) tr0))
        (fileKey ⟨f0.name, c2, f0.isFile⟩) =
      some ⟨h1, f0.name, now2, c2.length⟩ := by
  have hgf : fileGuard (⟨f0.name, c2, f0.isFile⟩ : SrcFile) = true := hg
  constructor
  · unfold get_new_or_modified_documents
    rw [List.filterMap_append, List.filterMap_cons]
    have hpre : pre.filterMap
        (scanFile hashf (update_document_tracker hashf now (pre ++ f0 :: post) tr0)) = [] :=
      List.filterMap_eq_nil_iff.mpr (fun f hf =>
        scanFile_after_update hashf now (pre ++ f0 :: post) tr0 f
          (List.mem_append_left _ hf) hnd)
    have hpost : post.filterMap
        (scanFile hashf (update_document_tracker hashf now (pre ++ f0 :: post) tr0)) = [] :=
      List.filterMap_eq_nil_iff.mpr (fun f hf =>
        scanFile_after_update hashf now (pre ++ f0 :: post) tr0 f
          (List.mem_append_right _ (List.mem_cons_of_mem _ hf)) hnd)
    have hmark : scanFile hashf (update_document_tracker hashf now (pre ++ f0 :: post) tr0)
        (⟨f0.name, c2, f0.isFile⟩ : SrcFile) = some (docPath ⟨f0.name, c2, f0.isFile⟩) := by
      cases hlk : lookupT (update_document_tracker hashf now (pre ++ f0 :: post) tr0)
          (fileKey (⟨f0.name, c2, f0.isFile⟩ : SrcFile)) with
      | none => simp [scanFile, hgf, hh1, hlk]
      | some e =>
        have hneq : e.hash ≠ h1 := hstale e hlk
        simp [scanFile, hgf, hh1, hlk, hneq]
    simp [hpre, hpost, hmark]
  · have hmem : (⟨f0.name, c2, f0.isFile⟩ : SrcFile) ∈
        pre ++ (⟨f0.name, c2, f0.isFile⟩ : SrcFile) :: post :=
      List.mem_append_right _ (List.mem_cons_self _ _)
    exact lookupT_update_written hashf now2
      (pre ++ (⟨f0.name, c2, f0.isFile⟩ : SrcFile) :: post)
      (update_document_tracker hashf now (pre ++ f0 :: post) tr0)
      ⟨f0.name, c2, f0.isFile⟩ h1 hmem hgf hh1 hnd2

/-- Witness theorem for the amended C4: the single file `a.txt` changes
from `x` to `xy`; the rescan marks exactly it and the update stores the
new hash. -/
theorem rescan_marks_changed_file_witness :
    get_new_or_modified_documents hashW
        ([] ++ (⟨"a.txt", "xy", true⟩ : SrcFile) :: [])
        (update_document_tracker hashW "t0" ([] ++ (⟨"a.txt", "x", true⟩ : SrcFile) :: []) []) =
      [docPath ⟨"a.txt", "xy", true⟩] ∧
    lookupT (update_document_tracker hashW "t1"
        ([] ++ (⟨"a.txt", "xy", true⟩ : SrcFile) :: [])
        (update_document_tracker hashW "t0" ([] ++ (⟨"a.txt", "x", true⟩ : SrcFile) :: []) []))
        (fileKey ⟨"a.txt", "xy", true⟩) =
      some ⟨"xy", "a.txt", "t1", 2⟩ := by
  have hnone : lookupT (update_document_tracker hashW "t0"
      ([] ++ (⟨"a.txt", "x", true⟩ : SrcFile) :: []) [])
      (fileKey (⟨"a.txt", "xy", true⟩ : SrcFile)) = none := by decide
  exact rescan_marks_changed_file hashW "t0" "t1" [] [] ⟨"a.txt", "x", true⟩ "xy" "x" "xy" []
    (by decide) (by decide) (by decide) (by decide) (by decide) (by decide)
    (fun e he => absurd (hnone ▸ he) (by simp))

/-! ## Structured lookup (C1, C2) -/

/-- Modelled from the spec: the claimed fixed lookup order — past-ticket
reuse first, then FAQ keyword match, then team lookup — returning the first
hit.  Built only to compare the claimed order with the implemented
`query_database_tool`. -/
def specStructuredLookup (env : Env) (q : String) : String :=
  match query_ticket_answer env q with
  | some s => s
  | none =>
    match query_faq env q none with
    | some s => s
    | none =>
      match query_team_info env q with
      | some s => s
      | none => "___NO_INFO_FOUND___"

/-- Store for the C1 counterexample: no past tickets, a team member
`alice`, and an FAQ row matching the keyword `alice`. -/
def envC1 : Env := ⟨⟨[], [⟨"alice", "bio"⟩], [⟨"about alice", "FAQ-ANS"⟩], true⟩, true⟩

/-- C1 counterexample: on the non-general query `alice`, no past ticket
matches and the FAQ keyword query has a hit, so the claimed order
(ticket, FAQ, team) would return the FAQ answer; the implementation
consults the team table before the FAQ for non-general questions and
returns the team record instead. -/
theorem lookup_order_counterexample :
    query_ticket_answer envC1 "alice" = none ∧
    query_faq envC1 "alice" none = some "FAQ-ANS" ∧
    specStructuredLookup envC1 "alice" = "FAQ-ANS" ∧
    query_database_tool envC1 "alice" = "alice: bio" :=
  ⟨by decide, by decide, by decide, by decide⟩

/-- Truthiness of the absent value, as a rewrite rule. -/
@[simp] theorem pyTruthy_none : pyTruthy none = false := rfl

/-- C1 (amended): structured lookup first returns a truthy past-ticket
answer; among the remaining sources the order depends on
`is_general_question`: FAQ before team for general questions, team before
FAQ otherwise; the first truthy hit is returned, else the sentinel. -/
theorem structured_lookup_order (env : Env) (q : String) :
    (pyTruthy (query_ticket_answer env q) = true →
      query_database_tool env q = (query_ticket_answer env q).getD "") ∧
    (pyTruthy (query_ticket_answer env q) = false →
     is_general_question q = true →
     pyTruthy (query_faq env q none) = true →
      query_database_tool env q = (query_faq env q none).getD "") ∧
    (pyTruthy (query_ticket_answer env q) = false →
     is_general_question q = false →
     pyTruthy (query_team_info env q) = true →
      query_database_tool env q = (query_team_info env q).getD "") ∧
    (pyTruthy (query_ticket_answer env q) = false →
     is_general_question q = true →
     pyTruthy (query_faq env q none) = false →
     pyTruthy (query_team_info env q) = true →
      query_database_tool env q = (query_team_info env q).getD "") ∧
    (pyTruthy (query_ticket_answer env q) = false →
     is_general_question q = false →
     pyTruthy (query_team_info env q) = false →
     pyTruthy (query_faq env q none) = true →
      query_database_tool env q = (query_faq env q none).getD "") ∧
    (pyTruthy (query_ticket_answer env q) = false →
     pyTruthy (query_faq env q none) = false →
     pyTruthy (query_team_info env q) = false →
      query_database_tool env q = "___NO_INFO_FOUND___") := by
  refine ⟨?_, ?_, ?_, ?_, ?_, ?_⟩
  · intro h1
    simp [query_database_tool, h1]
  · intro h1 h2 h3
    simp [query_database_tool, database_query_tool, h1, h2, h3]
  · intro h1 h2 h3
    simp [query_database_tool, database_query_tool, h1, h2, h3]
  · intro h1 h2 h3 h4
    simp [query_database_tool, database_query_tool, h1, h2, h3, h4]
  · intro h1 h2 h3 h4
    simp [query_database_tool, database_query_tool, h1, h2, h3, h4]
  · intro h1 h2 h3
    by_cases hg : is_general_question q <;>
      simp [query_database_tool, database_query_tool, h1, h2, h3, hg]

/-- Witness theorem for the amended C1: on the non-general query `alice`
with both an FAQ and a team hit available, the tool returns the team
result. -/
theorem structured_lookup_order_witness :
    query_database_tool envC1 "alice" = (query_team_info envC1 "alice").getD "" :=
  (structured_lookup_order envC1 "alice").2.2.1 (by decide) (by decide) (by decide)

/-- Store for the C2 counterexample: the most recent (and only) ticket for
the issue has the non-null empty-string response. -/
def envC2 : Env :=
  ⟨⟨[⟨"TKT-1", "u", "printer jam", some "", "closed", 5⟩], [], [], false⟩, true⟩

/-- C2 counterexample: a past ticket with issue text identical to the query
holds the non-null response `""`; the claim says structured lookup returns
that stored response verbatim, but the tool's truthiness test skips the
empty string and the lookup falls through to the not-found sentinel. -/
theorem empty_response_not_returned :
    query_ticket_answer envC2 "printer jam" = some "" ∧
    query_database_tool envC2 "printer jam" = "___NO_INFO_FOUND___" :=
  ⟨by decide, by decide⟩

/-- C2 (amended): when the most recent stored ticket with issue text
identical to the query and a non-null response has a non-empty response
text, structured lookup returns that response verbatim, taking priority
over any FAQ or team match. -/
theorem ticket_reuse_priority (env : Env) (q s : String) (t : Ticket)
    (hconn : env.connOk = true)
    (hrow : ticketAnswerRow env.db.tickets q = some t)
    (hresp : t.response = some s) (hne : s ≠ "") :
    query_database_tool env q = s := by
  have hqa : query_ticket_answer env q = some s := by
    simp [query_ticket_answer, hconn, hrow, hresp]
  simp [query_database_tool, hqa, pyTruthy, hne]

/-- Store for the C2 witness: a resolved past ticket together with an FAQ
row and a team row that would both match the same query. -/
def envC2b : Env :=
  ⟨⟨[⟨"TKT-1", "u", "printer jam", some "FIXED", "closed", 5⟩],
    [⟨"printer jam", "technician"⟩], [⟨"printer jam help", "FAQ-ANS"⟩], true⟩, true⟩

/-- Witness theorem for the amended C2: the stored human response wins over
the available FAQ and team matches. -/
theorem ticket_reuse_priority_witness :
    query_database_tool envC2b "printer jam" = "FIXED" :=
  ticket_reuse_priority envC2b "printer jam" "FIXED"
    ⟨"TKT-1", "u", "printer jam", some "FIXED", "closed", 5⟩
    (by decide) (by decide) (by decide) (by decide)

/-! ## Capability error handling (C5) and confirmation gate (C7) -/

/-- C5: with the store unreachable (`connOk = false`) and the retrieval
stack raising (`ok = false`), each of the four capabilities still returns
its user-facing fallback text — the embedded tools are total functions into
`String`, mirroring the source's catch-all handlers, so no exception
reaches the orchestration loop. -/
theorem capability_errors_become_text (env : Env) (ragEnv : RagEnv)
    (q tid freshHex confirmInput uq un : String) (now : Nat)
    (hconn : env.connOk = false) (hrag : ragEnv.ok = false) :
    query_database_tool env q = "___NO_INFO_FOUND___" ∧
    query_rag_tool ragEnv q = "No relevant information found in documentation." ∧
    ((create_support_ticket_tool env freshHex now confirmInput uq un).1 =
       "Okay, no ticket was created." ∨
     (create_support_ticket_tool env freshHex now confirmInput uq un).1 =
       "Failed to create a support ticket. Please try again later.") ∧
    check_ticket_status_tool env tid = "Ticket " ++ tid ++ " not found." := by
  refine ⟨?_, ?_, ?_, ?_⟩
  · have hta : query_ticket_answer env q = none := by simp [query_ticket_answer, hconn]
    have hfaq : query_faq env q none = none := by simp [query_faq, hconn]
    have hteam : query_team_info env q = none := by
      cases hn : extract_name_from_question q with
      | none => simp [query_team_info, hn]
      | some nm => simp [query_team_info, hn, hconn]
    simp [query_database_tool, database_query_tool, hta, hfaq, hteam, pyTruthy]
  · simp [query_rag_tool, rag_search, hrag, pyTruthy]
  · by_cases hc : pyLower (pyStrip confirmInput) == "yes" ||
        pyLower (pyStrip confirmInput) == "y"
    · right
      simp [create_support_ticket_tool, create_support_ticket, hc, hconn, pyTruthy]
    · left
      simp [create_support_ticket_tool, hc]
  · simp [check_ticket_status_tool, get_ticket_by_id, hconn]

/-- Unreachable-store environment for the C5 witness. -/
def envBad : Env := ⟨⟨[], [], [], true⟩, false⟩

/-- Raising retrieval environment for the C5 witness. -/
def ragBad : RagEnv := ⟨false, 0, fun _ => [], fun _ _ => ""⟩

/-- Witness theorem for C5 at concrete inputs. -/
theorem capability_errors_become_text_witness :
    query_database_tool envBad "help me" = "___NO_INFO_FOUND___" ∧
    query_rag_tool ragBad "help me" = "No relevant information found in documentation." ∧
    ((create_support_ticket_tool envBad "ab12cd34" 7 "yes" "help me" "bob").1 =
       "Okay, no ticket was created." ∨
     (create_support_ticket_tool envBad "ab12cd34" 7 "yes" "help me" "bob").1 =
       "Failed to create a support ticket. Please try again later.") ∧
    check_ticket_status_tool envBad "TKT-XYZ" = "Ticket " ++ "TKT-XYZ" ++ " not found." :=
  capability_errors_become_text envBad ragBad "help me" "TKT-XYZ" "ab12cd34" "yes"
    "help me" "bob" 7 rfl rfl

/-- C7: a confirmation reply other than affirmative (`yes`/`y` after
strip and lowercase) returns the no-op text and leaves the store unchanged;
only an affirmative reply (with a reachable store) inserts a ticket. -/
theorem ticket_confirmation_gate (env : Env) (freshHex : String) (now : Nat)
    (confirmInput uq un : String) :
    (pyLower (pyStrip confirmInput) ∉ (["yes", "y"] : List String) →
      create_support_ticket_tool env freshHex now confirmInput uq un =
        ("Okay, no ticket was created.", env.db)) ∧
    (pyLower (pyStrip confirmInput) ∈ (["yes", "y"] : List String) → env.connOk = true →
      (create_support_ticket_tool env freshHex now confirmInput uq un).2 =
        ⟨env.db.tickets ++
           [⟨"TKT-" ++ pyUpper (strTake freshHex 8), un, uq, none, "open", now⟩],
         env.db.teams, env.db.faq, env.db.faqExists⟩) := by
  constructor
  · intro h
    have hc : ¬(pyLower (pyStrip confirmInput) = "yes" ∨
        pyLower (pyStrip confirmInput) = "y") := by simpa using h
    have hy1 : pyLower (pyStrip confirmInput) ≠ "yes" := fun he => hc (Or.inl he)
    have hy2 : pyLower (pyStrip confirmInput) ≠ "y" := fun he => hc (Or.inr he)
    simp [create_support_ticket_tool, hy1, hy2]
  · intro h hconn
    have hc : pyLower (pyStrip confirmInput) = "yes" ∨
        pyLower (pyStrip confirmInput) = "y" := by simpa using h
    simp only [create_support_ticket_tool, create_support_ticket, hconn, if_true]
    rcases hc with hc | hc <;> simp [hc] <;> split <;> rfl

/-- Reachable empty store for the C7 witness. -/
def envW7 : Env := ⟨⟨[], [], [], true⟩, true⟩

/-- Witness theorem for C7: the reply `No` declines (no state change), the
reply `YES` inserts exactly one open ticket. -/
theorem ticket_confirmation_gate_witness :
    create_support_ticket_tool envW7 "ab12cd34" 7 " No " "printer down" "bob" =
      ("Okay, no ticket was created.", envW7.db) ∧
    (create_support_ticket_tool envW7 "ab12cd34" 7 "YES" "printer down" "bob").2 =
      ⟨envW7.db.tickets ++ [⟨"TKT-" ++ pyUpper (strTake "ab12cd34" 8), "bob",
         "printer down", none, "open", 7⟩],
       envW7.db.teams, envW7.db.faq, envW7.db.faqExists⟩ :=
  ⟨(ticket_confirmation_gate envW7 "ab12cd34" 7 " No " "printer down" "bob").1 (by decide),
   (ticket_confirmation_gate envW7 "ab12cd34" 7 "YES" "printer down" "bob").2 (by decide) rfl⟩

/-! ## Retrieval answerer (C8) -/

/-- C8: the retrieval answerer returns `none` — never an exception, the
function is total — on a raising downstream stack, on an empty collection,
on an empty retrieval, and whenever the stripped model answer contains a
fixed not-found phrase (checked case-insensitively); otherwise it returns
the model's stripped answer text. -/
theorem rag_search_contract (env : RagEnv) (q : String) :
    (env.chunkCount = 0 → rag_search env q = none) ∧
    (env.ok = false → rag_search env q = none) ∧
    (env.ok = true → env.chunkCount ≠ 0 → env.retrieve q = [] →
      rag_search env q = none) ∧
    (env.ok = true → env.chunkCount ≠ 0 → env.retrieve q ≠ [] →
      (notFoundPhrases.any (fun p =>
          strContains (pyLower (pyStrip (env.llm q (joinWith "\n\n" (env.retrieve q))))) p) = true →
        rag_search env q = none) ∧
      (notFoundPhrases.any (fun p =>
          strContains (pyLower (pyStrip (env.llm q (joinWith "\n\n" (env.retrieve q))))) p) = false →
        rag_search env q = some (pyStrip (env.llm q (joinWith "\n\n" (env.retrieve q)))))) := by
  refine ⟨?_, ?_, ?_, ?_⟩
  · intro h0
    by_cases hok : env.ok <;> simp [rag_search, hok, h0]
  · intro hok
    simp [rag_search, hok]
  · intro hok hcc hr
    simp [rag_search, hok, hcc, hr]
  · intro hok hcc hr
    constructor
    · intro hph
      simp [rag_search, hok, hcc, hr, hph]
    · intro hph
      simp [rag_search, hok, hcc, hr, hph]

/-- Working retrieval environment for the C8 witness. -/
def ragW : RagEnv :=
  ⟨true, 2, fun _ => ["Refunds are accepted within 30 days."],
   fun _ _ => " You have 30 days to request a refund. "⟩

/-- Witness theorem for C8: a found answer is returned stripped, and the
raising environment yields `none`. -/
theorem rag_search_contract_witness :
    rag_search ragW "refund policy" =
      some (pyStrip (ragW.llm "refund policy"
        (joinWith "\n\n" (ragW.retrieve "refund policy")))) ∧
    rag_search ragBad "refund policy" = none :=
  ⟨((rag_search_contract ragW "refund policy").2.2.2 rfl (by decide) (by decide)).2 (by decide),
   (rag_search_contract ragBad "refund policy").2.1 rfl⟩

/-! ## Orchestration loop (C6, C9) -/

/-- Executor oracle modelling a turn in which every executor result is a
bare message carrying tool calls. -/
def alwaysToolCallExec : ExecOracle := fun _ _ => (.message ⟨.ai, "call tools", true⟩, [])

/-- Tools oracle appending one tool message and logging nothing. -/
def stubToolOracle : ToolOracle := fun _ _ => ([⟨.toolMsg, "tool output", false⟩], [])

/-- Last message of a history extended by one message. -/
theorem lastMsgD_append_single (l : List Msg) (m : Msg) : lastMsgD (l ++ [m]) = m := by
  simp [lastMsgD, List.getLastD_concat]

/-- C6 counterexample: under an executor stream whose every result is a
tool-call message, the loop is still running after 12 reasoning/execution
cycles — beyond the spec's example cap of 10 — with no failure surfaced. -/
theorem loop_exceeds_ten_cycles :
    runGraph alwaysToolCallExec stubToolOracle 12 0 ⟨[], []⟩ [] = none := by rfl

/-- C6 (amended): the source imposes no iteration cap: under the
always-tool-call executor the loop is unfinished after every finite number
of cycles (so no cap-exceeded failure is ever produced), while a turn ends
exactly when the executor result appends a message without tool calls —
in particular one cycle after any dict-shaped executor result. -/
theorem no_iteration_cap :
    (∀ (n cyc : Nat) (st : AgentState) (log : List Invocation),
      runGraph alwaysToolCallExec stubToolOracle n cyc st log = none) ∧
    (∀ (exec : ExecOracle) (tools : ToolOracle) (fuel cyc : Nat) (st : AgentState)
        (log : List Invocation) (out : String) (steps : List (String × String))
        (inv : List Invocation),
      exec cyc st = (.dictResult out steps, inv) →
      runGraph exec tools (fuel + 1) cyc st log =
        some (⟨st.chat_history ++ [⟨.ai, out, false⟩], steps⟩, log ++ inv)) := by
  constructor
  · intro n
    induction n with
    | zero => intro cyc st log; rfl
    | succ n ih =>
      intro cyc st log
      simp [runGraph, run_agent, alwaysToolCallExec, should_continue,
        lastMsgD_append_single, stubToolOracle, ih]
  · intro exec tools fuel cyc st log out steps inv hexec
    simp [runGraph, run_agent, hexec, should_continue, lastMsgD_append_single]

/-- Witness theorem for the amended C6: no termination within 11 cycles for
the tool-call stream; immediate termination on a dict result. -/
theorem no_iteration_cap_witness :
    runGraph alwaysToolCallExec stubToolOracle 11 0 ⟨[], []⟩ [] = none ∧
    runGraph (fun _ _ => (.dictResult "done" [], [])) stubToolOracle 1 0 ⟨[], []⟩ [] =
      some (⟨[⟨.ai, "done", false⟩], []⟩, []) :=
  ⟨no_iteration_cap.1 11 0 ⟨[], []⟩ [],
   no_iteration_cap.2 (fun _ _ => (.dictResult "done" [], [])) stubToolOracle
     0 0 ⟨[], []⟩ [] "done" [] [] rfl⟩

/-- C9: `process_graph_with_agent` executes the compiled workflow twice on
the same initial state (once fully drained via `stream`, once via
`invoke`), so the turn's invocation log is the single-run log twice and
every requested capability invocation — including ticket creation — is
executed twice per user turn. -/
theorem double_execution (exec : ExecOracle) (tools : ToolOracle) (fuel : Nat)
    (user_input : String) (hist : List Msg) (st : AgentState) (L : List Invocation)
    (h : runGraph exec tools fuel 0 (initState user_input hist) [] = some (st, L)) :
    process_graph_with_agent exec tools fuel user_input hist =
      some (lastMsgD st.chat_history, L ++ L) ∧
    ∀ i : Invocation, (L ++ L).count i = 2 * L.count i := by
  refine ⟨by simp [process_graph_with_agent, h], fun i => ?_⟩
  simp [List.count_append, Nat.two_mul]

/-- Executor oracle for the C9 witness: one dict-shaped result whose
production ran the ticket-creation capability once. -/
def ticketExecW : ExecOracle :=
  fun _ _ => (.dictResult "done" [], [⟨"create_support_ticket_tool", "need help"⟩])

/-- Witness theorem for C9: the single run logs one ticket creation, the
turn logs two. -/
theorem double_execution_witness :
    process_graph_with_agent ticketExecW stubToolOracle 1 "need help" [] =
      some (⟨.ai, "done", false⟩,
        [⟨"create_support_ticket_tool", "need help"⟩,
         ⟨"create_support_ticket_tool", "need help"⟩]) ∧
    List.count (⟨"create_support_ticket_tool", "need help"⟩ : Invocation)
      ([⟨"create_support_ticket_tool", "need help"⟩] ++
        [⟨"create_support_ticket_tool", "need help"⟩]) =
      2 * List.count (⟨"create_support_ticket_tool", "need help"⟩ : Invocation)
        [⟨"create_support_ticket_tool", "need help"⟩] := by
  have h := double_execution ticketExecW stubToolOracle 1 "need help" []
    ⟨[⟨.human, "need help", false⟩, ⟨.ai, "done", false⟩], []⟩
    [⟨"create_support_ticket_tool", "need help"⟩] (by rfl)
  exact ⟨h.1, h.2 _⟩

/-! ## HTTP layer (C10) -/

/-- C10: for every non-conversational request the `/chat` handler cannot
complete normally: `process_graph_with_agent` hands it a single message,
whose `[-1]` indexing raises, so the handler's `except` clause surfaces an
HTTP 500 — with the subscripting `TypeError` whenever the graph run itself
finishes. -/
theorem chat_endpoint_500 (exec : ExecOracle) (tools : ToolOracle) (fuel : Nat)
    (req : ChatRequest)
    (h1 : is_conversational req.user_input = false)
    (h2 : is_goodbye req.user_input = false) :
    (∃ d, chat_with_agent exec tools fuel req = .httpError 500 d) ∧
    (∀ (m : Msg) (log : List Invocation),
      process_graph_with_agent exec tools fuel req.user_input
        (convert_to_langchain_messages req.conversation_history ++
          [⟨.human, req.user_input, false⟩]) = some (m, log) →
      chat_with_agent exec tools fuel req =
        .httpError 500 "TypeError: AIMessage object is not subscriptable") := by
  constructor
  · cases hp : process_graph_with_agent exec tools fuel req.user_input
        (convert_to_langchain_messages req.conversation_history ++
          [⟨.human, req.user_input, false⟩]) with
    | none =>
      exact ⟨"GraphRecursionError", by
        simp [chat_with_agent, h1, h2, chatBody, hp, Except.instMonad,
          Bind.bind, Except.bind, Functor.map, Except.map]⟩
    | some p =>
      obtain ⟨m, log⟩ := p
      exact ⟨"TypeError: AIMessage object is not subscriptable", by
        simp [chat_with_agent, h1, h2, chatBody, hp, pyLastItem, Except.instMonad,
          Bind.bind, Except.bind, Functor.map, Except.map]⟩
  · intro m log hp
    simp [chat_with_agent, h1, h2, chatBody, hp, pyLastItem, Except.instMonad,
      Bind.bind, Except.bind, Functor.map, Except.map]

/-- Concrete non-conversational request for the C10 witness. -/
def reqW : ChatRequest := ⟨"refund policy", []⟩

/-- Witness theorem for C10. -/
theorem chat_endpoint_500_witness :
    chat_with_agent ticketExecW stubToolOracle 1 reqW =
      .httpError 500 "TypeError: AIMessage object is not subscriptable" :=
  (chat_endpoint_500 ticketExecW stubToolOracle 1 reqW (by decide) (by decide)).2
    ⟨.ai, "done", false⟩
    [⟨"create_support_ticket_tool", "need help"⟩,
     ⟨"create_support_ticket_tool", "need help"⟩] (by rfl)

end CSA
